import Mathlib

/-!
Verification development for the snowflake-rs client library.

This file gives a shallow embedding, in Lean 4, of the parts of the
repository that the checked properties talk about:

- the session manager (snowflake-api/src/session.rs): token model, expiry,
  the get_token state machine, login and renewal handling;
- the query executor (snowflake-api/src/lib.rs): statement classification,
  run_sql request stamping, exec_arrow result decoding;
- the HTTP dispatcher response handling (snowflake-api/src/connection.rs);
- the staged-file engine (snowflake-api/src/upload_files.rs): glob
  expansion, size bucketing, upload routing;
- the JWT issuer (jwt/src/lib.rs): fingerprint, claim construction,
  timestamp normalization;
- the response schema (snowflake-api/src/responses.rs): the untagged
  ExecResponse sum and the serde-style decoders of its variants.

Machine integers are modelled as Nat with explicit wrap-around where the
source can overflow (u64 sequence counter). Durations and monotonic
instants are modelled in nanoseconds. Fallible operations return Except
or Option; a panic in the source (unwrap on an error) is modelled as
Option.none. Network and filesystem effects are passed in explicitly as
oracle functions, so every definition is executable.
-/

/-! ## Time model

Rust std::time::Duration and std::time::Instant are modelled as Nat
nanosecond counts. Instant::duration_since saturates at zero, which Nat
subtraction gives for free. -/

def nsPerSec : Nat := 1000000000

/-- Largest u64 value, used by AuthToken::new for a negative validity. -/
def u64Max : Nat := 2 ^ 64 - 1

/-- Number of representable u64 values; the sequence counter wraps at this. -/
def u64Mod : Nat := 2 ^ 64

/-! ## Session manager model (snowflake-api/src/session.rs) -/

/-- AuthToken (session.rs). validFor and issuedOn are in nanoseconds. -/
structure AuthToken where
  token : String
  validFor : Nat
  issuedOn : Nat
deriving DecidableEq

/-- AuthToken::new (session.rs). A negative validity maps to
Duration::from_secs(u64::MAX): u64::try_from fails exactly on negative
input, and both the if branch and the unwrap_or fallback give u64::MAX.
The `now` argument stands for the Instant::now() call in the source. -/
def AuthToken.create (token : String) (validityInSeconds : Int) (now : Nat) : AuthToken :=
  { token := token
    validFor := (if validityInSeconds < 0 then u64Max else validityInSeconds.toNat) * nsPerSec
    issuedOn := now }

/-- AuthToken::is_expired: now.duration_since(issued_on) >= valid_for. -/
def AuthToken.isExpired (t : AuthToken) (now : Nat) : Bool :=
  t.validFor ≤ now - t.issuedOn

/-- AuthToken::auth_header. -/
def AuthToken.authHeader (t : AuthToken) : String :=
  "Snowflake Token=\"" ++ t.token ++ "\""

/-- AuthTokens (session.rs): the cached token pair plus the u64 sequence
counter. The counter is kept as a Nat below 2^64 and incremented with
wrap-around, matching release-mode u64 arithmetic. -/
structure AuthTokens where
  sessionToken : AuthToken
  masterToken : AuthToken
  sequenceId : Nat
deriving DecidableEq

/-- AuthParts (session.rs): what get_token hands to run_sql. -/
structure AuthParts where
  sessionTokenAuthHeader : String
  sequenceId : Nat
deriving DecidableEq

/-- AuthError (session.rs), restricted to the variants reachable from
get_token: a transparent connection error, a server-reported auth
failure, and the unexpected-shape fallback. -/
inductive AuthErrorM
  | requestError
  | authFailed (code message : String)
  | unexpectedResponse
deriving DecidableEq

/-- LoginResponseData fields used by Session::create. -/
structure LoginDataM where
  token : String
  masterToken : String
  validityInSeconds : Int
  masterValidityInSeconds : Int
deriving DecidableEq

/-- RenewSessionResponseData fields used by Session::renew. -/
structure RenewDataM where
  sessionToken : String
  validityInSecondsST : Int
  masterToken : String
  validityInSecondsMT : Int
deriving DecidableEq

/-- AuthResponse (responses.rs): the untagged auth response sum, with the
payloads the session manager actually reads. Code and message of the
error variant are optional in the source and defaulted with
unwrap_or_default at the use sites. -/
inductive AuthResponseM
  | login (d : LoginDataM)
  | auth
  | renew (d : RenewDataM)
  | close
  | error (code message : Option String)
deriving DecidableEq

deriving instance DecidableEq for Except

/-- Result of one HTTP round trip of the session manager: either a
transport-level failure (connection error) or a decoded AuthResponse. -/
abbrev ConnResult := Except Unit AuthResponseM

/-- Which session-manager endpoints were hit during a get_token call. -/
inductive RequestKind
  | loginRequest
  | tokenRequest
deriving DecidableEq

/-- Session::create response handling (session.rs): Login gives a fresh
pair with sequence_id 0, Error maps to AuthFailed with defaulted fields,
anything else is UnexpectedResponse; a transport error passes through. -/
def createTokens (resp : ConnResult) (now : Nat) : Except AuthErrorM AuthTokens :=
  match resp with
  | .error _ => .error .requestError
  | .ok (.login lr) =>
      .ok { sessionToken := AuthToken.create lr.token lr.validityInSeconds now
            masterToken := AuthToken.create lr.masterToken lr.masterValidityInSeconds now
            sequenceId := 0 }
  | .ok (.error c m) => .error (.authFailed (c.getD "") (m.getD ""))
  | .ok _ => .error .unexpectedResponse

/-- Session::renew response handling (session.rs): Renew gives a fresh
pair that keeps the old sequence_id; Error and unexpected shapes as in
createTokens. -/
def renewTokens (resp : ConnResult) (now : Nat) (oldSequenceId : Nat) :
    Except AuthErrorM AuthTokens :=
  match resp with
  | .error _ => .error .requestError
  | .ok (.renew rs) =>
      .ok { sessionToken := AuthToken.create rs.sessionToken rs.validityInSecondsST now
            masterToken := AuthToken.create rs.masterToken rs.validityInSecondsMT now
            sequenceId := oldSequenceId }
  | .ok (.error c m) => .error (.authFailed (c.getD "") (m.getD ""))
  | .ok _ => .error .unexpectedResponse

/-- Environment of a single get_token call: the current monotonic instant
and the outcomes the network would give to a login and to a renewal
round trip issued at that moment. -/
structure CallEnv where
  now : Nat
  loginResp : ConnResult
  renewResp : ConnResult
deriving DecidableEq

/-- Outcome of one get_token call: the new cached state, the returned
value, and the session-manager requests that were dispatched. -/
structure GetTokenResult where
  state : Option AuthTokens
  result : Except AuthErrorM AuthParts
  requests : List RequestKind
deriving DecidableEq

/-- Tail of Session::get_token: sequence_id += 1 (u64, wrapping in
release mode) followed by building AuthParts from the cached pair. -/
def finishGetToken (tokens : AuthTokens) (reqs : List RequestKind) : GetTokenResult :=
  let seq := (tokens.sequenceId + 1) % u64Mod
  let tokens' := { tokens with sequenceId := seq }
  { state := some tokens'
    result := .ok { sessionTokenAuthHeader := tokens'.sessionToken.authHeader
                    sequenceId := seq }
    requests := reqs }

/-- Session::get_token (session.rs) as a state transformer on the mutex
contents. Branch order follows the source: absent pair or expired master
token triggers a fresh login (on failure the guard is dropped with the
old contents still in place); otherwise an expired session token
triggers a renewal, for which the pair is first taken out (so a renewal
failure leaves None behind); otherwise the cached pair is reused. The
none case of the inner match is unreachable because the first branch
handles it, where the source would panic on unwrap. -/
def getToken (st : Option AuthTokens) (env : CallEnv) : GetTokenResult :=
  if st.isNone || st.any (fun a => a.masterToken.isExpired env.now) then
    match createTokens env.loginResp env.now with
    | .error e => { state := st, result := .error e, requests := [.loginRequest] }
    | .ok tokens => finishGetToken tokens [.loginRequest]
  else
    match st with
    | none => { state := none, result := .error .unexpectedResponse, requests := [] }
    | some old =>
      if old.sessionToken.isExpired env.now then
        match renewTokens env.renewResp env.now old.sequenceId with
        | .error e => { state := none, result := .error e, requests := [.tokenRequest] }
        | .ok tokens => finishGetToken tokens [.tokenRequest]
      else
        finishGetToken old []

/-- ExecRequest (requests.rs, as built by SnowflakeApi::run_sql). -/
structure ExecRequestM where
  sqlText : String
  asyncExec : Bool
  sequenceId : Nat
  isInternal : Bool
deriving DecidableEq

/-- Outcome of one run_sql call: new session state plus either the error
from get_token or the query request body that was dispatched. -/
structure RunSqlResult where
  state : Option AuthTokens
  request : Except AuthErrorM ExecRequestM
  requests : List RequestKind
deriving DecidableEq

/-- SnowflakeApi::run_sql (lib.rs): fetch auth parts, then stamp the
query body with the returned sequence_id, async_exec false and
is_internal false. -/
def runSqlStep (st : Option AuthTokens) (sql : String) (env : CallEnv) : RunSqlResult :=
  let r := getToken st env
  match r.result with
  | .error e => { state := r.state, request := .error e, requests := r.requests }
  | .ok parts =>
      { state := r.state
        request := .ok { sqlText := sql, asyncExec := false
                         sequenceId := parts.sequenceId, isInternal := false }
        requests := r.requests }

/-- N serialized exec calls on one session: fold runSqlStep over the call
environments, collecting the dispatched (or failed) query bodies. -/
def runCalls (st : Option AuthTokens) (sql : String) :
    List CallEnv → Option AuthTokens × List (Except AuthErrorM ExecRequestM)
  | [] => (st, [])
  | env :: rest =>
      let r := runSqlStep st sql env
      let (st', outs) := runCalls r.state sql rest
      (st', r.request :: outs)

/-! ## Statement classification (snowflake-api/src/lib.rs, exec)

The source classifies with regex::Regex::is_match on the pattern
(?i)^(?:/\*.*\*/\s*)*put\s+ — case-insensitive, anchored at the start,
with the dot not matching a newline and \s the Unicode white-space
class. is_match asks whether some prefix of the input lies in the
pattern language; a greedy and a lazy dot-star generate the same
language, so the matcher below (which backtracks over every possible
comment-closing position not separated by a newline) decides exactly
that language. -/

/-- Unicode White_Space membership, the regex-crate meaning of the \s class. -/
def isWsChar (c : Char) : Bool :=
  let n := c.toNat
  (9 ≤ n && n ≤ 13) || n = 32 || n = 0x85 || n = 0xa0 || n = 0x1680 ||
  (0x2000 ≤ n && n ≤ 0x200a) || n = 0x2028 || n = 0x2029 || n = 0x202f ||
  n = 0x205f || n = 0x3000

/-- Drop the longest white-space run at the head, one \s* step. -/
def skipWs : List Char → List Char
  | [] => []
  | c :: cs => if isWsChar c then skipWs cs else c :: cs

/-- Does the text start with the given lowercase keyword (matched
case-insensitively) followed by at least one white-space character? -/
def startsKeyword : List Char → List Char → Bool
  | [], c :: _ => isWsChar c
  | [], [] => false
  | k :: ks, c :: cs => (c.toLower = k) && startsKeyword ks cs
  | _ :: _, [] => false

/-- All suffixes that can follow a comment close: positions where the
text reads star-slash and no newline separates them from the comment
opening (the dot of the regex does not match a newline). -/
def closeScan : List Char → List (List Char)
  | [] => []
  | '\n' :: _ => []
  | '*' :: rest =>
      (match rest with
       | '/' :: tail => [tail]
       | _ => []) ++ closeScan rest
  | _ :: rest => closeScan rest

/-- Backtracking matcher for (?i)^(?:/\*.*\*/\s*)*KW\s+ where KW is the
keyword: either the keyword starts here, or a block comment starts here
and after some legal close and white space the pattern matches again.
Each recursion consumes at least four characters, so fuel equal to the
length plus one never runs out. -/
def matchFrom (kw : List Char) : Nat → List Char → Bool
  | 0, _ => false
  | fuel + 1, cs =>
      startsKeyword kw cs ||
      (match cs with
       | '/' :: '*' :: rest =>
           (closeScan rest).any (fun tail => matchFrom kw fuel (skipWs tail))
       | _ => false)

/-- The PUT detection regex of SnowflakeApi::exec (lib.rs line 292). -/
def putMatch (s : String) : Bool := matchFrom ['p', 'u', 't'] (s.length + 1) s.data

/-- Modelled from the spec: the GET (download) routing is absent from
src — only supporting declarations exist there (CommandType::Download,
local_location in responses.rs). Spec section 4.4 defines it as
symmetric to the PUT match, so the same language with keyword get. -/
def getMatch (s : String) : Bool := matchFrom ['g', 'e', 't'] (s.length + 1) s.data

inductive StatementClass
  | putFlow
  | getFlow
  | regular
deriving DecidableEq

/-- Statement classification of SnowflakeApi::exec: a PUT match goes to
the upload flow, a GET match to the (spec-modelled) download flow, and
everything else is sent as a regular query. -/
def classifyStatement (s : String) : StatementClass :=
  if putMatch s then .putFlow
  else if getMatch s then .getFlow
  else .regular

/-! ## HTTP dispatcher response handling (snowflake-api/src/connection.rs) -/

/-- An HTTP response as the dispatcher sees it: status code and body. -/
structure HttpResponseM where
  status : Nat
  body : String
deriving DecidableEq

/-- ConnectionError (connection.rs): exactly the five declared variants.
Every variant wraps a foreign error transparently; the payloads are not
needed here. -/
inductive ConnectionErrorM
  | requestError
  | requestMiddlewareError
  | urlParsing
  | deserialization
  | invalidHeader
deriving DecidableEq

/-- Response handling of Connection::request (connection.rs lines
167-175). The source ends with resp.json deserialized into the target
type inside Ok(..?): the status code is never inspected, and a body
that fails to parse surfaces as the reqwest decode error, which the
from-conversion wraps as ConnectionError::RequestError. The decode
oracle stands for serde deserialization into R. -/
def requestHandleResponse {R : Type} (decode : String → Option R) (resp : HttpResponseM) :
    Except ConnectionErrorM R :=
  match decode resp.body with
  | some r => .ok r
  | none => .error .requestError

/-! ## Staged-file engine (snowflake-api/src/upload_files.rs)

The filesystem is passed in as oracles: globFn maps a pattern to none
when the pattern is invalid (glob::glob returns Err) and otherwise to
the list of walk results, each of which is none for an unreadable entry
(a GlobError) and some path for a match. glob only yields paths that
exist at walk time, so a pattern naming a missing file yields an empty
list. meta maps a path to its size, or none when fs::metadata fails. -/

/-- UploadFiles (upload_files.rs). The threshold field is the u64 the
constructor computed. -/
structure UploadFilesM where
  smallFiles : List String
  largeFiles : List String
  threshold : Nat
deriving DecidableEq

/-- UploadFiles::new: u64::try_from(threshold).unwrap_or(0) clamps a
negative i64 threshold to 0, which is Int.toNat. -/
def UploadFilesM.create (threshold : Int) : UploadFilesM :=
  { smallFiles := [], largeFiles := [], threshold := threshold.toNat }

/-- UploadFiles::push_file: fs::metadata(&file).unwrap() panics when the
metadata call fails (modelled as none); otherwise the file goes to
large_files when its size exceeds the threshold and to small_files
otherwise. -/
def pushFile (meta : String → Option Nat) (uf : UploadFilesM) (file : String) :
    Option UploadFilesM :=
  match meta file with
  | none => none
  | some len =>
      if uf.threshold < len then some { uf with largeFiles := uf.largeFiles ++ [file] }
      else some { uf with smallFiles := uf.smallFiles ++ [file] }

/-- The locations iterator of get_files: invalid patterns are dropped by
filter_map over glob results, unreadable entries by filter_map over the
walk results. Paths are assumed valid UTF-8 (the to_str filter). -/
def expandGlobs (globFn : String → Option (List (Option String)))
    (srcLocations : List String) : List String :=
  (srcLocations.filterMap globFn).flatMap (fun paths => paths.filterMap id)

/-- The for-loop of get_files: push every path in order, propagating a
panic from push_file. -/
def pushAll (meta : String → Option Nat) : UploadFilesM → List String → Option UploadFilesM
  | uf, [] => some uf
  | uf, f :: fs =>
      match pushFile meta uf f with
      | none => none
      | some uf' => pushAll meta uf' fs

/-- get_files (upload_files.rs): expand the globs, then push every match
into the size buckets; a metadata failure propagates as a panic. -/
def getFiles (globFn : String → Option (List (Option String)))
    (meta : String → Option Nat) (srcLocations : List String) (threshold : Int) :
    Option UploadFilesM :=
  pushAll meta (UploadFilesM.create threshold) (expandGlobs globFn srcLocations)

/-- SnowflakeApiError variants produced by the PUT path before any
object-store I/O. -/
inductive PutErrorM
  | invalidBucketPath (location : String)
deriving DecidableEq

/-- The upload routing that put_to_s3 commits to: which files go through
the bounded-parallel path, with which limit, and which go through the
sequential path. -/
structure UploadPlan where
  parallelUploads : List String
  maxParallel : Nat
  sequentialUploads : List String
  bucketPath : String
deriving DecidableEq

/-- str::split_once on a character: split at the first occurrence. -/
def splitOnceChars (c : Char) : List Char → Option (List Char × List Char)
  | [] => none
  | x :: xs =>
      if x = c then some ([], xs)
      else (splitOnceChars c xs).map (fun p => (x :: p.1, p.2))

/-- str::split_once used on stage_info.location in put_to_s3. -/
def splitOnce (s : String) (c : Char) : Option (String × String) :=
  (splitOnceChars c s.data).map (fun p => (⟨p.1⟩, ⟨p.2⟩))

/-- Plan-level model of SnowflakeApi::put_to_s3 (lib.rs lines 337-369):
split the stage location on the first slash (InvalidBucketPath when
there is none), bucket the files with get_files at the
max_file_size_threshold, then hand small_files to upload_files_parallel
bounded by max_parallel_uploads and large_files to
upload_files_sequential. The object-store transfer itself is outside
the model; none is a panic escaping get_files. -/
def putToS3Plan (globFn : String → Option (List (Option String)))
    (meta : String → Option Nat) (location : String) (srcLocations : List String)
    (maxFileSizeThreshold : Int) (maxParallelUploads : Nat) :
    Option (Except PutErrorM UploadPlan) :=
  match splitOnce location '/' with
  | none => some (.error (.invalidBucketPath location))
  | some (_bucketName, bucketPath) =>
      (getFiles globFn meta srcLocations maxFileSizeThreshold).map (fun files =>
        .ok { parallelUploads := files.smallFiles
              maxParallel := maxParallelUploads
              sequentialUploads := files.largeFiles
              bucketPath := bucketPath })

/-- A filesystem with no files: every valid pattern walks to nothing.
glob::glob on a literal path that names a missing file behaves exactly
like this — the pattern compiles and the iterator is empty. -/
def globNoMatches : String → Option (List (Option String)) := fun _ => some []

/-! ## JWT issuer (jwt/src/lib.rs)

The sha2 and base64 library calls of the source are embedded as the
standard SHA-256 and standard-alphabet padded base64 algorithms over
byte lists (bytes are Nats below 256, words Nats below 2^32). RSA key
parsing, public-key derivation and DER encoding stay outside the model:
the DER bytes of the public key enter as an argument. -/

def m32 (x : Nat) : Nat := x % 4294967296

def rotr32 (n x : Nat) : Nat := m32 ((x >>> n) ||| (x <<< (32 - n)))

def sha256K : List Nat :=
  [1116352408, 1899447441, 3049323471, 3921009573, 961987163, 1508970993,
   2453635748, 2870763221, 3624381080, 310598401, 607225278, 1426881987,
   1925078388, 2162078206, 2614888103, 3248222580, 3835390401, 4022224774,
   264347078, 604807628, 770255983, 1249150122, 1555081692, 1996064986,
   2554220882, 2821834349, 2952996808, 3210313671, 3336571891, 3584528711,
   113926993, 338241895, 666307205, 773529912, 1294757372, 1396182291,
   1695183700, 1986661051, 2177026350, 2456956037, 2730485921, 2820302411,
   3259730800, 3345764771, 3516065817, 3600352804, 4094571909, 275423344,
   430227734, 506948616, 659060556, 883997877, 958139571, 1322822218,
   1537002063, 1747873779, 1955562222, 2024104815, 2227730452, 2361852424,
   2428436474, 2756734187, 3204031479, 3329325298]

def sha256H0 : List Nat :=
  [1779033703, 3144134277, 1013904242, 2773480762,
   1359893119, 2600822924, 528734635, 1541459225]

/-- Big-endian byte serialization of a Nat into the given width. -/
def toBytesBE : Nat → Nat → List Nat
  | 0, _ => []
  | n + 1, x => toBytesBE n (x / 256) ++ [x % 256]

/-- SHA-256 padding: one 0x80 byte, zeros to 56 mod 64, then the bit
length as a 64-bit big-endian value. -/
def sha256Pad (msg : List Nat) : List Nat :=
  let padZeros := (119 - msg.length % 64) % 64
  msg ++ [0x80] ++ List.replicate padZeros 0 ++ toBytesBE 8 (msg.length * 8)

/-- Split into 64-byte blocks; the fuel is only to keep the recursion
structural and any value of at least the list length works. -/
def chunks64 : Nat → List Nat → List (List Nat)
  | 0, _ => []
  | _, [] => []
  | f + 1, x :: xs => (x :: xs.take 63) :: chunks64 f (xs.drop 63)

/-- Big-endian 32-bit words of a block. -/
def bytesToWords : List Nat → List Nat
  | b0 :: b1 :: b2 :: b3 :: rest =>
      (((b0 * 256 + b1) * 256 + b2) * 256 + b3) :: bytesToWords rest
  | _ => []

def smallSigma0 (x : Nat) : Nat := rotr32 7 x ^^^ rotr32 18 x ^^^ (x >>> 3)

def smallSigma1 (x : Nat) : Nat := rotr32 17 x ^^^ rotr32 19 x ^^^ (x >>> 10)

def bigSigma0 (x : Nat) : Nat := rotr32 2 x ^^^ rotr32 13 x ^^^ rotr32 22 x

def bigSigma1 (x : Nat) : Nat := rotr32 6 x ^^^ rotr32 11 x ^^^ rotr32 25 x

def chFn (e f g : Nat) : Nat := (e &&& f) ^^^ ((e ^^^ 0xffffffff) &&& g)

def majFn (a b c : Nat) : Nat := (a &&& b) ^^^ (a &&& c) ^^^ (b &&& c)

/-- Message-schedule extension: append the next word n times. -/
def extendSchedule : Nat → List Nat → List Nat
  | 0, w => w
  | n + 1, w =>
      let i := w.length
      let wi := m32 (w.getD (i - 16) 0 + smallSigma0 (w.getD (i - 15) 0) +
        w.getD (i - 7) 0 + smallSigma1 (w.getD (i - 2) 0))
      extendSchedule n (w ++ [wi])

/-- The 64 compression rounds over the zipped round constants and
schedule words. -/
def sha256Rounds : List (Nat × Nat) → List Nat → List Nat
  | [], st => st
  | (k, w) :: rest, [a, b, c, d, e, f, g, h] =>
      let t1 := m32 (h + bigSigma1 e + chFn e f g + k + w)
      let t2 := m32 (bigSigma0 a + majFn a b c)
      sha256Rounds rest [m32 (t1 + t2), a, b, c, m32 (d + t1), e, f, g]
  | _ :: _, st => st

def sha256ProcessBlock (st block : List Nat) : List Nat :=
  let ws := extendSchedule 48 (bytesToWords block)
  let st' := sha256Rounds (sha256K.zip ws) st
  (st.zip st').map (fun p => m32 (p.1 + p.2))

/-- SHA-256 digest of a byte list, as 32 bytes. -/
def sha256 (msg : List Nat) : List Nat :=
  let padded := sha256Pad msg
  ((chunks64 (padded.length + 1) padded).foldl sha256ProcessBlock sha256H0).flatMap
    (toBytesBE 4)

def base64Alphabet : List Char :=
  "ABCDEFGHIJKLMNOPQRSTUVWXYZabcdefghijklmnopqrstuvwxyz0123456789+/".data

def base64Digit (n : Nat) : Char := base64Alphabet.getD n 'A'

/-- Standard-alphabet base64 with padding, 3 input bytes per 4 output
characters. -/
def base64Chars : List Nat → List Char
  | [] => []
  | [b0] => [base64Digit (b0 / 4), base64Digit (b0 % 4 * 16), '=', '=']
  | [b0, b1] =>
      [base64Digit (b0 / 4), base64Digit (b0 % 4 * 16 + b1 / 16),
       base64Digit (b1 % 16 * 4), '=']
  | b0 :: b1 :: b2 :: rest =>
      base64Digit (b0 / 4) :: base64Digit (b0 % 4 * 16 + b1 / 16) ::
        base64Digit (b1 % 16 * 4 + b2 / 64) :: base64Digit (b2 % 64) ::
        base64Chars rest

def base64Encode (bytes : List Nat) : String := ⟨base64Chars bytes⟩

/-- pubkey_fingerprint (jwt lib.rs): standard base64 of the SHA-256 of
the DER-encoded public key. -/
def pubkeyFingerprint (pubkey : List Nat) : String := base64Encode (sha256 pubkey)

/-- Claims (jwt lib.rs). Timestamps model OffsetDateTime as nanoseconds
since the Unix epoch. -/
structure ClaimsM where
  iss : String
  sub : String
  iat : Nat
  exp : Nat
deriving DecidableEq

/-- The with_hms_milli(hour, minute, second, 0) normalization of
Claims::new: keep the calendar date and the whole seconds, zero the
sub-second part. -/
def truncToSecond (t : Nat) : Nat := t - t % nsPerSec

/-- Claims::new: store iss and sub as given, both timestamps normalized
to whole seconds. -/
def ClaimsM.create (iss sub : String) (iat exp : Nat) : ClaimsM :=
  { iss := iss, sub := sub, iat := truncToSecond iat, exp := truncToSecond exp }

/-- The jwt_numeric_date serializer: OffsetDateTime::unix_timestamp,
whole seconds since the epoch. -/
def jwtNumericDate (t : Nat) : Nat := t / nsPerSec

def secondsPerDay : Nat := 86400

/-- Claim construction of generate_jwt_token (jwt lib.rs lines 103-126):
iss is the full identifier, a dot, the SHA256 prefix and the public-key
fingerprint; sub is the identifier; iat is now and exp is one day
later, both normalized by Claims::new. The pkcs8 parse, the public-key
DER serialization and the RS256 signing are library calls outside the
model; the DER bytes enter as an argument and the `now` argument stands
for OffsetDateTime::now_utc. -/
def generateJwtClaims (pubkeyDer : List Nat) (fullIdentifier : String) (now : Nat) : ClaimsM :=
  ClaimsM.create (fullIdentifier ++ ".SHA256:" ++ pubkeyFingerprint pubkeyDer)
    fullIdentifier now (now + secondsPerDay * nsPerSec)

/-! ## Response schema (snowflake-api/src/responses.rs)

A JSON value model and serde-style decoders for the ExecResponse
untagged sum. Each struct decoder mirrors the serde derive on the
source struct: required fields must be present and well-typed, Option
fields default to none when absent or null, fields with a serde default
attribute fall back to their Default value when absent, unknown fields
are ignored, and field names follow the rename attributes of the
source. An untagged enum decoder tries the variants in declaration
order and keeps the first success, which is what the serde derive
generates. -/

inductive Json
  | null
  | bool (b : Bool)
  | num (n : Int)
  | str (s : String)
  | arr (elems : List Json)
  | obj (fields : List (String × Json))

def Json.lookup (j : Json) (key : String) : Option Json :=
  match j with
  | .obj fields => fields.lookup key
  | _ => none

def decodeString : Json → Option String
  | .str s => some s
  | _ => none

def decodeBool : Json → Option Bool
  | .bool b => some b
  | _ => none

def decodeI64 : Json → Option Int
  | .num n => if -(2 ^ 63) ≤ n ∧ n < 2 ^ 63 then some n else none
  | _ => none

def decodeI32 : Json → Option Int
  | .num n => if -(2 ^ 31) ≤ n ∧ n < 2 ^ 31 then some n else none
  | _ => none

def decodeAny : Json → Option Json := fun j => some j

def decodeList {α : Type} (dec : Json → Option α) : Json → Option (List α)
  | .arr xs => xs.mapM dec
  | _ => none

/-- HashMap of String to String, kept as an association list. -/
def decodeStringMap : Json → Option (List (String × String))
  | .obj fields => fields.mapM (fun p => (decodeString p.2).map (fun v => (p.1, v)))
  | _ => none

/-- A required struct field. -/
def reqField {α : Type} (j : Json) (key : String) (dec : Json → Option α) : Option α :=
  (j.lookup key).bind dec

/-- An Option-typed struct field: absent or null is none. -/
def optField {α : Type} (j : Json) (key : String) (dec : Json → Option α) :
    Option (Option α) :=
  match j.lookup key with
  | none => some none
  | some .null => some none
  | some v => (dec v).map some

/-- A field carrying a serde default attribute: absent falls back. -/
def defField {α : Type} (j : Json) (key : String) (dec : Json → Option α) (dflt : α) :
    Option α :=
  match j.lookup key with
  | none => some dflt
  | some v => dec v

structure NameValueParamM where
  name : String
  value : Json

def decodeNameValueParam (j : Json) : Option NameValueParamM := do
  let name ← reqField j "name" decodeString
  let value ← reqField j "value" decodeAny
  pure { name := name, value := value }

inductive SnowflakeTypeM
  | fixed | real | text | date | variant
  | timestampLtz | timestampNtz | timestampTz
  | object | binary | time | boolean | array
deriving DecidableEq

/-- SnowflakeType with rename_all snake_case. -/
def decodeSnowflakeType : Json → Option SnowflakeTypeM
  | .str s =>
      if s = "fixed" then some .fixed
      else if s = "real" then some .real
      else if s = "text" then some .text
      else if s = "date" then some .date
      else if s = "variant" then some .variant
      else if s = "timestamp_ltz" then some .timestampLtz
      else if s = "timestamp_ntz" then some .timestampNtz
      else if s = "timestamp_tz" then some .timestampTz
      else if s = "object" then some .object
      else if s = "binary" then some .binary
      else if s = "time" then some .time
      else if s = "boolean" then some .boolean
      else if s = "array" then some .array
      else none
  | _ => none

structure ExecResponseRowTypeM where
  name : String
  byteLength : Option Int
  length : Option Int
  rowTypeKind : SnowflakeTypeM
  scale : Option Int
  precision : Option Int
  nullable : Bool

/-- ExecResponseRowType: no rename_all; byteLength and type are renamed
explicitly, the rest keep their field names. -/
def decodeRowType (j : Json) : Option ExecResponseRowTypeM := do
  let name ← reqField j "name" decodeString
  let byteLength ← optField j "byteLength" decodeI64
  let length ← optField j "length" decodeI64
  let k ← reqField j "type" decodeSnowflakeType
  let scale ← optField j "scale" decodeI64
  let precision ← optField j "precision" decodeI64
  let nullable ← reqField j "nullable" decodeBool
  pure { name := name, byteLength := byteLength, length := length, rowTypeKind := k
         scale := scale, precision := precision, nullable := nullable }

structure ExecResponseChunkM where
  url : String
  rowCount : Int
  uncompressedSize : Int
deriving DecidableEq

def decodeChunk (j : Json) : Option ExecResponseChunkM := do
  let url ← reqField j "url" decodeString
  let rowCount ← reqField j "rowCount" decodeI32
  let uncompressedSize ← reqField j "uncompressedSize" decodeI64
  pure { url := url, rowCount := rowCount, uncompressedSize := uncompressedSize }

structure QueryExecResponseDataM where
  parameters : List NameValueParamM
  rowtype : List ExecResponseRowTypeM
  rowset : Option Json
  rowsetBase64 : Option String
  total : Int
  returned : Int
  queryId : String
  databaseProvider : Option String
  finalDatabaseName : Option String
  finalSchemaName : Option String
  finalWarehouseName : Option String
  finalRoleName : String
  numberOfBinds : Option Int
  statementTypeId : Int
  version : Int
  chunks : List ExecResponseChunkM
  qrmk : Option String
  chunkHeaders : List (String × String)

/-- QueryExecResponseData with rename_all camelCase; chunks and
chunkHeaders carry serde defaults. Written as a match chain: the
equivalent do block elaborates too slowly at this field count. -/
def decodeQueryData (j : Json) : Option QueryExecResponseDataM :=
  match reqField j "parameters" (decodeList decodeNameValueParam) with
  | none => none
  | some parameters =>
  match reqField j "rowtype" (decodeList decodeRowType) with
  | none => none
  | some rowtype =>
  match optField j "rowset" decodeAny with
  | none => none
  | some rowset =>
  match optField j "rowsetBase64" decodeString with
  | none => none
  | some rowsetBase64 =>
  match reqField j "total" decodeI64 with
  | none => none
  | some total =>
  match reqField j "returned" decodeI64 with
  | none => none
  | some returned =>
  match reqField j "queryId" decodeString with
  | none => none
  | some queryId =>
  match optField j "databaseProvider" decodeString with
  | none => none
  | some databaseProvider =>
  match optField j "finalDatabaseName" decodeString with
  | none => none
  | some finalDatabaseName =>
  match optField j "finalSchemaName" decodeString with
  | none => none
  | some finalSchemaName =>
  match optField j "finalWarehouseName" decodeString with
  | none => none
  | some finalWarehouseName =>
  match reqField j "finalRoleName" decodeString with
  | none => none
  | some finalRoleName =>
  match optField j "numberOfBinds" decodeI32 with
  | none => none
  | some numberOfBinds =>
  match reqField j "statementTypeId" decodeI64 with
  | none => none
  | some statementTypeId =>
  match reqField j "version" decodeI64 with
  | none => none
  | some version =>
  match defField j "chunks" (decodeList decodeChunk) [] with
  | none => none
  | some chunks =>
  match optField j "qrmk" decodeString with
  | none => none
  | some qrmk =>
  match defField j "chunkHeaders" decodeStringMap [] with
  | none => none
  | some chunkHeaders =>
  some { parameters := parameters, rowtype := rowtype, rowset := rowset
         rowsetBase64 := rowsetBase64, total := total, returned := returned
         queryId := queryId, databaseProvider := databaseProvider
         finalDatabaseName := finalDatabaseName, finalSchemaName := finalSchemaName
         finalWarehouseName := finalWarehouseName, finalRoleName := finalRoleName
         numberOfBinds := numberOfBinds, statementTypeId := statementTypeId
         version := version, chunks := chunks, qrmk := qrmk
         chunkHeaders := chunkHeaders }

inductive CommandTypeM
  | upload
  | download
deriving DecidableEq

/-- CommandType with rename_all UPPERCASE. -/
def decodeCommandType : Json → Option CommandTypeM
  | .str s =>
      if s = "UPLOAD" then some .upload
      else if s = "DOWNLOAD" then some .download
      else none
  | _ => none

structure AwsCredentialsM where
  awsKeyId : String
  awsSecretKey : String
  awsToken : String
  awsId : String
  awsKey : String
deriving DecidableEq

/-- AwsCredentials with rename_all SCREAMING_SNAKE_CASE. -/
def decodeAwsCreds (j : Json) : Option AwsCredentialsM := do
  let awsKeyId ← reqField j "AWS_KEY_ID" decodeString
  let awsSecretKey ← reqField j "AWS_SECRET_KEY" decodeString
  let awsToken ← reqField j "AWS_TOKEN" decodeString
  let awsId ← reqField j "AWS_ID" decodeString
  let awsKey ← reqField j "AWS_KEY" decodeString
  pure { awsKeyId := awsKeyId, awsSecretKey := awsSecretKey, awsToken := awsToken
         awsId := awsId, awsKey := awsKey }

structure AwsPutGetStageInfoM where
  locationType : String
  location : String
  region : String
  creds : AwsCredentialsM
  endPoint : Option String
deriving DecidableEq

def decodeAwsStage (j : Json) : Option AwsPutGetStageInfoM := do
  let locationType ← reqField j "locationType" decodeString
  let location ← reqField j "location" decodeString
  let region ← reqField j "region" decodeString
  let creds ← reqField j "creds" decodeAwsCreds
  let endPoint ← optField j "endPoint" decodeString
  pure { locationType := locationType, location := location, region := region
         creds := creds, endPoint := endPoint }

structure AzureCredentialsM where
  azureSasToken : String
deriving DecidableEq

def decodeAzureCreds (j : Json) : Option AzureCredentialsM := do
  let azureSasToken ← reqField j "AZURE_SAS_TOKEN" decodeString
  pure { azureSasToken := azureSasToken }

structure AzurePutGetStageInfoM where
  locationType : String
  location : String
  storageAccount : String
  creds : AzureCredentialsM
deriving DecidableEq

def decodeAzureStage (j : Json) : Option AzurePutGetStageInfoM := do
  let locationType ← reqField j "locationType" decodeString
  let location ← reqField j "location" decodeString
  let storageAccount ← reqField j "storageAccount" decodeString
  let creds ← reqField j "creds" decodeAzureCreds
  pure { locationType := locationType, location := location
         storageAccount := storageAccount, creds := creds }

structure GcsCredentialsM where
  gcsAccessToken : String
deriving DecidableEq

def decodeGcsCreds (j : Json) : Option GcsCredentialsM := do
  let gcsAccessToken ← reqField j "GCS_ACCESS_TOKEN" decodeString
  pure { gcsAccessToken := gcsAccessToken }

structure GcsPutGetStageInfoM where
  locationType : String
  location : String
  storageAccount : String
  creds : GcsCredentialsM
  presignedUrl : String
deriving DecidableEq

def decodeGcsStage (j : Json) : Option GcsPutGetStageInfoM := do
  let locationType ← reqField j "locationType" decodeString
  let location ← reqField j "location" decodeString
  let storageAccount ← reqField j "storageAccount" decodeString
  let creds ← reqField j "creds" decodeGcsCreds
  let presignedUrl ← reqField j "presignedUrl" decodeString
  pure { locationType := locationType, location := location
         storageAccount := storageAccount, creds := creds
         presignedUrl := presignedUrl }

inductive PutGetStageInfoM
  | aws (i : AwsPutGetStageInfoM)
  | azure (i : AzurePutGetStageInfoM)
  | gcs (i : GcsPutGetStageInfoM)
deriving DecidableEq

/-- PutGetStageInfo, untagged: Aws then Azure then Gcs. -/
def decodeStageInfo (j : Json) : Option PutGetStageInfoM :=
  match decodeAwsStage j with
  | some i => some (.aws i)
  | none =>
      match decodeAzureStage j with
      | some i => some (.azure i)
      | none => (decodeGcsStage j).map .gcs

structure PutGetEncryptionMaterialM where
  queryStageMasterKey : String
  queryId : String
  smkId : Int
deriving DecidableEq

def decodeEncMaterial (j : Json) : Option PutGetEncryptionMaterialM := do
  let queryStageMasterKey ← reqField j "queryStageMasterKey" decodeString
  let queryId ← reqField j "queryId" decodeString
  let smkId ← reqField j "smkId" decodeI64
  pure { queryStageMasterKey := queryStageMasterKey, queryId := queryId
         smkId := smkId }

inductive EncryptionMaterialVariantM
  | single (m : PutGetEncryptionMaterialM)
  | multiple (ms : List PutGetEncryptionMaterialM)
deriving DecidableEq

/-- EncryptionMaterialVariant, untagged: Single then Multiple. -/
def decodeEncVariant (j : Json) : Option EncryptionMaterialVariantM :=
  match decodeEncMaterial j with
  | some m => some (.single m)
  | none => (decodeList decodeEncMaterial j).map .multiple

structure PutGetResponseDataM where
  command : CommandTypeM
  localLocation : Option String
  srcLocations : List String
  parallel : Int
  threshold : Int
  autoCompress : Bool
  overwrite : Bool
  sourceCompression : String
  stageInfo : PutGetStageInfoM
  encryptionMaterial : EncryptionMaterialVariantM
  presignedUrls : List String
  parameters : List NameValueParamM
  statementTypeId : Option Int

/-- PutGetResponseData with rename_all camelCase; src_locations keeps
its snake_case name by explicit rename and carries a default, as do
presignedUrls and parameters. Written as a match chain: the equivalent
do block elaborates too slowly at this field count. -/
def decodePutGetData (j : Json) : Option PutGetResponseDataM :=
  match reqField j "command" decodeCommandType with
  | none => none
  | some command =>
  match optField j "localLocation" decodeString with
  | none => none
  | some localLocation =>
  match defField j "src_locations" (decodeList decodeString) [] with
  | none => none
  | some srcLocations =>
  match reqField j "parallel" decodeI32 with
  | none => none
  | some parallel =>
  match reqField j "threshold" decodeI64 with
  | none => none
  | some threshold =>
  match reqField j "autoCompress" decodeBool with
  | none => none
  | some autoCompress =>
  match reqField j "overwrite" decodeBool with
  | none => none
  | some overwrite =>
  match reqField j "sourceCompression" decodeString with
  | none => none
  | some sourceCompression =>
  match reqField j "stageInfo" decodeStageInfo with
  | none => none
  | some stageInfo =>
  match reqField j "encryptionMaterial" decodeEncVariant with
  | none => none
  | some encryptionMaterial =>
  match defField j "presignedUrls" (decodeList decodeString) [] with
  | none => none
  | some presignedUrls =>
  match defField j "parameters" (decodeList decodeNameValueParam) [] with
  | none => none
  | some parameters =>
  match optField j "statementTypeId" decodeI64 with
  | none => none
  | some statementTypeId =>
  some { command := command, localLocation := localLocation
         srcLocations := srcLocations, parallel := parallel, threshold := threshold
         autoCompress := autoCompress, overwrite := overwrite
         sourceCompression := sourceCompression, stageInfo := stageInfo
         encryptionMaterial := encryptionMaterial, presignedUrls := presignedUrls
         parameters := parameters, statementTypeId := statementTypeId }

structure AsyncQueryDataM where
  queryId : String
  getResultUrl : String
  queryAbortsAfterSecs : Int
  progressDesc : Option String
deriving DecidableEq

def decodeAsyncData (j : Json) : Option AsyncQueryDataM := do
  let queryId ← reqField j "queryId" decodeString
  let getResultUrl ← reqField j "getResultUrl" decodeString
  let queryAbortsAfterSecs ← reqField j "queryAbortsAfterSecs" decodeI64
  let progressDesc ← optField j "progressDesc" decodeString
  pure { queryId := queryId, getResultUrl := getResultUrl
         queryAbortsAfterSecs := queryAbortsAfterSecs, progressDesc := progressDesc }

structure MultiStatementDataM where
  queryId : String
  resultIds : String
  resultTypes : String
deriving DecidableEq

def decodeMultiData (j : Json) : Option MultiStatementDataM := do
  let queryId ← reqField j "queryId" decodeString
  let resultIds ← reqField j "resultIds" decodeString
  let resultTypes ← reqField j "resultTypes" decodeString
  pure { queryId := queryId, resultIds := resultIds, resultTypes := resultTypes }

structure ExecErrorDataM where
  age : Int
  errorCode : String
  internalError : Bool
  line : Option Int
  pos : Option Int
  queryId : String
  sqlState : String
deriving DecidableEq

def decodeExecErrorData (j : Json) : Option ExecErrorDataM := do
  let age ← reqField j "age" decodeI64
  let errorCode ← reqField j "errorCode" decodeString
  let internalError ← reqField j "internalError" decodeBool
  let line ← optField j "line" decodeI64
  let pos ← optField j "pos" decodeI64
  let queryId ← reqField j "queryId" decodeString
  let sqlState ← reqField j "sqlState" decodeString
  pure { age := age, errorCode := errorCode, internalError := internalError
         line := line, pos := pos, queryId := queryId, sqlState := sqlState }

/-- BaseRestResponse: the common envelope around every data payload. -/
structure BaseRestResponseM (D : Type) where
  code : Option String
  message : Option String
  success : Bool
  data : D

def decodeBase {D : Type} (decData : Json → Option D) (j : Json) :
    Option (BaseRestResponseM D) := do
  let code ← optField j "code" decodeString
  let message ← optField j "message" decodeString
  let success ← reqField j "success" decodeBool
  let data ← reqField j "data" decData
  pure { code := code, message := message, success := success, data := data }

/-- ExecResponse (responses.rs lines 5-15): the untagged sum in
declaration order PutGet, AsyncQuery, MultiStatementQuery, Query,
Error. -/
inductive ExecResponseM
  | putGet (r : BaseRestResponseM PutGetResponseDataM)
  | asyncQuery (r : BaseRestResponseM AsyncQueryDataM)
  | multiStatementQuery (r : BaseRestResponseM MultiStatementDataM)
  | query (r : BaseRestResponseM QueryExecResponseDataM)
  | error (r : BaseRestResponseM ExecErrorDataM)

/-- Does a decoded response sit in the PutGet variant? -/
def ExecResponseM.isPutGet : ExecResponseM → Bool
  | .putGet _ => true
  | _ => false

/-- The serde untagged decoder for ExecResponse: attempt the variants in
declaration order, keep the first success. -/
def decodeExecResponse (j : Json) : Option ExecResponseM :=
  match decodeBase decodePutGetData j with
  | some r => some (.putGet r)
  | none =>
      match decodeBase decodeAsyncData j with
      | some r => some (.asyncQuery r)
      | none =>
          match decodeBase decodeMultiData j with
          | some r => some (.multiStatementQuery r)
          | none =>
              match decodeBase decodeQueryData j with
              | some r => some (.query r)
              | none => (decodeBase decodeExecErrorData j).map .error

/-! ## Result decoding of exec_arrow (snowflake-api/src/lib.rs, lines 403-441) -/

/-- SnowflakeApiError variants reachable from the exec_arrow decode
path. -/
inductive SnowflakeApiErrorM
  | requestError
  | authError (e : AuthErrorM)
  | responseDeserializationError
  | arrowError
  | apiError (code message : String)
  | brokenResponse
  | unexpectedResponse
deriving DecidableEq

/-- QueryResult (lib.rs): Arrow batches, a JSON value, or Empty. The
batch type is abstract. -/
inductive QueryResultM (β : Type)
  | arrow (batches : List β)
  | json (v : Json)
  | empty

/-- Result decoding of exec_arrow on the Query variant. Mirrors the
source branch for branch: zero returned rows give Empty; a JSON rowset
gives Json; otherwise a present rowset_base64 is decoded and read as an
IPC stream only when it is non-empty, every chunk is fetched with the
response's chunk_headers and its batches appended in chunk order, and
the whole batch list is returned as Arrow; with no rowset at all the
result is BrokenResponse. The base64, IPC-reader and chunk-fetch
effects are oracles. -/
def execArrowDecode {β : Type} (d : QueryExecResponseDataM)
    (b64decode : String → Except SnowflakeApiErrorM (List Nat))
    (ipcBatches : List Nat → Except SnowflakeApiErrorM (List β))
    (fetchChunk : String → List (String × String) → Except SnowflakeApiErrorM (List Nat)) :
    Except SnowflakeApiErrorM (QueryResultM β) :=
  if d.returned = 0 then .ok .empty
  else
    match d.rowset with
    | some v => .ok (.json v)
    | none =>
        match d.rowsetBase64 with
        | some base64 => do
            let inline ←
              if base64 = "" then pure []
              else do
                let bytes ← b64decode base64
                ipcBatches bytes
            let chunkBytes ← d.chunks.mapM (fun c => fetchChunk c.url d.chunkHeaders)
            let chunkBatches ← chunkBytes.mapM ipcBatches
            pure (.arrow (inline ++ chunkBatches.flatten))
        | none => .error .brokenResponse

/-! ## Concrete bodies used to exercise the decoders -/

/-- A response body that satisfies both the PutGet and the Query variant
of ExecResponse at once: it has the full required PutGet field set
(with src_locations) and the full required Query field set (with
rowtype). -/
def putGetQueryAmbiguousBody : Json :=
  .obj [
    ("code", .null), ("message", .null), ("success", .bool true),
    ("data", .obj [
      ("command", .str "UPLOAD"),
      ("src_locations", .arr [.str "a.csv"]),
      ("parallel", .num 4),
      ("threshold", .num 209715200),
      ("autoCompress", .bool true),
      ("overwrite", .bool false),
      ("sourceCompression", .str "none"),
      ("stageInfo", .obj [
        ("locationType", .str "S3"),
        ("location", .str "bucket/path/"),
        ("region", .str "us-east-1"),
        ("creds", .obj [
          ("AWS_KEY_ID", .str "k"), ("AWS_SECRET_KEY", .str "s"),
          ("AWS_TOKEN", .str "t"), ("AWS_ID", .str "i"), ("AWS_KEY", .str "y")])]),
      ("encryptionMaterial", .obj [
        ("queryStageMasterKey", .str "mk"), ("queryId", .str "q1"), ("smkId", .num 7)]),
      ("parameters", .arr []),
      ("rowtype", .arr []),
      ("total", .num 0),
      ("returned", .num 0),
      ("queryId", .str "q1"),
      ("finalRoleName", .str "r"),
      ("statementTypeId", .num 0),
      ("version", .num 1)])]

/-- The PutGet reading of putGetQueryAmbiguousBody. -/
def putGetAmbiguousDecoded : BaseRestResponseM PutGetResponseDataM :=
  { code := none, message := none, success := true
    data :=
      { command := .upload, localLocation := none, srcLocations := ["a.csv"]
        parallel := 4, threshold := 209715200, autoCompress := true
        overwrite := false, sourceCompression := "none"
        stageInfo := .aws
          { locationType := "S3", location := "bucket/path/", region := "us-east-1"
            creds := { awsKeyId := "k", awsSecretKey := "s", awsToken := "t"
                       awsId := "i", awsKey := "y" }
            endPoint := none }
        encryptionMaterial := .single
          { queryStageMasterKey := "mk", queryId := "q1", smkId := 7 }
        presignedUrls := [], parameters := [], statementTypeId := some 0 } }

/-- A Query response payload with rows returned, no JSON rowset, an
empty rowset_base64 string and no chunks. -/
def emptyBase64QueryData : QueryExecResponseDataM :=
  { parameters := [], rowtype := [], rowset := none, rowsetBase64 := some ""
    total := 1, returned := 1, queryId := "q", databaseProvider := none
    finalDatabaseName := none, finalSchemaName := none, finalWarehouseName := none
    finalRoleName := "r", numberOfBinds := none, statementTypeId := 0
    version := 1, chunks := [], qrmk := none, chunkHeaders := [] }


/-! ## Theorems -/

lemma getToken_cached (tokens : AuthTokens) (env : CallEnv)
    (hm : tokens.masterToken.isExpired env.now = false)
    (hs : tokens.sessionToken.isExpired env.now = false) :
    getToken (some tokens) env = finishGetToken tokens [] := by
  simp [getToken, Option.any, hm, hs]

lemma runCalls_steady (sql : String) (envs : List CallEnv) (tokens : AuthTokens)
    (hvalid : ∀ env ∈ envs, tokens.masterToken.isExpired env.now = false ∧
      tokens.sessionToken.isExpired env.now = false)
    (hseq : tokens.sequenceId + envs.length < u64Mod) :
    runCalls (some tokens) sql envs =
      (some { tokens with sequenceId := tokens.sequenceId + envs.length },
       (List.range envs.length).map
         (fun i => .ok { sqlText := sql, asyncExec := false
                         sequenceId := tokens.sequenceId + i + 1, isInternal := false })) := by
  induction envs generalizing tokens with
  | nil => simp [runCalls]
  | cons env rest ih =>
    obtain ⟨hm, hs⟩ := hvalid env (by simp)
    simp only [List.length_cons] at hseq
    have hlt : tokens.sequenceId + 1 < u64Mod := by omega
    have hstep : runSqlStep (some tokens) sql env =
        { state := some { tokens with sequenceId := tokens.sequenceId + 1 }
          request := .ok { sqlText := sql, asyncExec := false
                           sequenceId := tokens.sequenceId + 1, isInternal := false }
          requests := [] } := by
      simp [runSqlStep, getToken_cached tokens env hm hs, finishGetToken,
        Nat.mod_eq_of_lt hlt]
    have hrest := ih { tokens with sequenceId := tokens.sequenceId + 1 }
      (by intro e he; exact hvalid e (by simp [he]))
      (by show tokens.sequenceId + 1 + rest.length < u64Mod; omega)
    simp only [runCalls, hstep, hrest, List.length_cons, Prod.mk.injEq,
      Option.some.injEq, List.range_succ_eq_map, List.map_cons, List.map_map]
    simp only [List.cons_eq_cons]
    refine ⟨by congr 1; omega, by simp, ?_⟩
    refine List.map_congr_left ?_
    intro a _
    simp only [Function.comp_apply, Except.ok.injEq, ExecRequestM.mk.injEq,
      true_and, and_true]
    omega

/-- C1: across N serialized exec calls on one session whose tokens never
expire, the sequence_id values stamped on the dispatched query requests
are exactly 1, 2, ..., N in order: the fresh login of the first call
initializes the counter to 0 and get_token increments it by one under
the session lock before returning it, so no value is returned twice. -/
theorem C1_sequence_monotonic (sql : String) (ld : LoginDataM) (e0 : CallEnv)
    (rest : List CallEnv)
    (hlogin : e0.loginResp = .ok (.login ld))
    (hvalid : ∀ env ∈ rest,
      (AuthToken.create ld.masterToken ld.masterValidityInSeconds e0.now).isExpired env.now
          = false ∧
      (AuthToken.create ld.token ld.validityInSeconds e0.now).isExpired env.now = false)
    (hN : rest.length + 1 < u64Mod) :
    (runCalls none sql (e0 :: rest)).2 =
      (List.range (rest.length + 1)).map
        (fun i => .ok { sqlText := sql, asyncExec := false, sequenceId := i + 1
                        isInternal := false }) := by
  have h1lt : (1 : Nat) < u64Mod := by simp [u64Mod]
  have hstep : runSqlStep none sql e0 =
      { state := some
          { sessionToken := AuthToken.create ld.token ld.validityInSeconds e0.now
            masterToken := AuthToken.create ld.masterToken ld.masterValidityInSeconds e0.now
            sequenceId := 1 }
        request := .ok { sqlText := sql, asyncExec := false, sequenceId := 1
                         isInternal := false }
        requests := [.loginRequest] } := by
    simp [runSqlStep, getToken, createTokens, hlogin, finishGetToken,
      Nat.mod_eq_of_lt h1lt]
  have hrest := runCalls_steady sql rest
    { sessionToken := AuthToken.create ld.token ld.validityInSeconds e0.now
      masterToken := AuthToken.create ld.masterToken ld.masterValidityInSeconds e0.now
      sequenceId := 1 }
    (by intro e he; exact ⟨(hvalid e he).1, (hvalid e he).2⟩)
    (by show 1 + rest.length < u64Mod; omega)
  simp only [runCalls, hstep, hrest, List.range_succ_eq_map, List.map_cons, List.map_map,
    List.cons_eq_cons]
  refine ⟨by simp, ?_⟩
  refine List.map_congr_left ?_
  intro a _
  simp only [Function.comp_apply, Except.ok.injEq, ExecRequestM.mk.injEq,
    true_and, and_true]
  omega

/-- Witness for C1 at a concrete two-call run. -/
theorem C1_sequence_monotonic_witness :
    (runCalls none "SELECT 1"
      [{ now := 0
         loginResp := .ok (.login { token := "st", masterToken := "mt"
                                    validityInSeconds := -1, masterValidityInSeconds := -1 })
         renewResp := .error () },
       { now := 5, loginResp := .error (), renewResp := .error () }]).2 =
      [.ok { sqlText := "SELECT 1", asyncExec := false, sequenceId := 1, isInternal := false },
       .ok { sqlText := "SELECT 1", asyncExec := false, sequenceId := 2, isInternal := false }] := by
  have h := C1_sequence_monotonic "SELECT 1"
    { token := "st", masterToken := "mt", validityInSeconds := -1
      masterValidityInSeconds := -1 }
    { now := 0
      loginResp := .ok (.login { token := "st", masterToken := "mt"
                                 validityInSeconds := -1, masterValidityInSeconds := -1 })
      renewResp := .error () }
    [{ now := 5, loginResp := .error (), renewResp := .error () }]
    rfl (by decide) (by decide)
  exact h.trans (by decide)

/-- C2: the get_token state machine on a cached pair. With an expired
master token the pair is discarded and a fresh login performed, after
which the counter restarts so the returned sequence_id is 1. With only
the session token expired and the master valid, the renewal exchange
produces a new pair that preserves the old sequence_id, so the returned
value is the old sequence_id plus one. With both tokens valid the
cached pair is reused and no login or renewal request is dispatched. -/
theorem C2_token_lifecycle (old : AuthTokens) (env : CallEnv) :
    (∀ ld, old.masterToken.isExpired env.now = true →
      env.loginResp = .ok (.login ld) →
      getToken (some old) env =
        { state := some
            { sessionToken := AuthToken.create ld.token ld.validityInSeconds env.now
              masterToken := AuthToken.create ld.masterToken ld.masterValidityInSeconds env.now
              sequenceId := 1 }
          result := .ok { sessionTokenAuthHeader :=
                            (AuthToken.create ld.token ld.validityInSeconds env.now).authHeader,
                          sequenceId := 1 }
          requests := [.loginRequest] })
    ∧ (∀ rd, old.masterToken.isExpired env.now = false →
        old.sessionToken.isExpired env.now = true →
        env.renewResp = .ok (.renew rd) →
        old.sequenceId + 1 < u64Mod →
        getToken (some old) env =
          { state := some
              { sessionToken := AuthToken.create rd.sessionToken rd.validityInSecondsST env.now
                masterToken := AuthToken.create rd.masterToken rd.validityInSecondsMT env.now
                sequenceId := old.sequenceId + 1 }
            result := .ok { sessionTokenAuthHeader :=
                              (AuthToken.create rd.sessionToken rd.validityInSecondsST env.now).authHeader,
                            sequenceId := old.sequenceId + 1 }
            requests := [.tokenRequest] })
    ∧ (old.masterToken.isExpired env.now = false →
        old.sessionToken.isExpired env.now = false →
        old.sequenceId + 1 < u64Mod →
        getToken (some old) env =
          { state := some { old with sequenceId := old.sequenceId + 1 }
            result := .ok { sessionTokenAuthHeader := old.sessionToken.authHeader,
                            sequenceId := old.sequenceId + 1 }
            requests := [] }) := by
  have h1lt : (1 : Nat) < u64Mod := by simp [u64Mod]
  refine ⟨?_, ?_, ?_⟩
  · intro ld hm hlogin
    simp [getToken, Option.any, hm, createTokens, hlogin, finishGetToken,
      Nat.mod_eq_of_lt h1lt]
  · intro rd hm hs hrenew hlt
    simp [getToken, Option.any, hm, hs, renewTokens, hrenew, finishGetToken,
      Nat.mod_eq_of_lt hlt]
  · intro hm hs hlt
    simp [getToken, Option.any, hm, hs, finishGetToken, Nat.mod_eq_of_lt hlt]

/-- Witness for C2: all three lifecycle branches at concrete pairs. -/
theorem C2_token_lifecycle_witness :
    getToken (some ⟨⟨"s", 0, 0⟩, ⟨"m", 0, 0⟩, 7⟩)
        ⟨10, .ok (.login ⟨"st", "mt", -1, -1⟩), .error ()⟩ =
      { state := some ⟨AuthToken.create "st" (-1) 10, AuthToken.create "mt" (-1) 10, 1⟩
        result := .ok ⟨(AuthToken.create "st" (-1) 10).authHeader, 1⟩
        requests := [.loginRequest] }
    ∧ getToken (some ⟨⟨"s", 0, 0⟩, ⟨"m", 1000000000000, 0⟩, 7⟩)
        ⟨10, .error (), .ok (.renew ⟨"st2", 5, "mt2", 5⟩)⟩ =
      { state := some ⟨AuthToken.create "st2" 5 10, AuthToken.create "mt2" 5 10, 8⟩
        result := .ok ⟨(AuthToken.create "st2" 5 10).authHeader, 8⟩
        requests := [.tokenRequest] }
    ∧ getToken (some ⟨⟨"s", 1000000000000, 0⟩, ⟨"m", 1000000000000, 0⟩, 7⟩)
        ⟨10, .error (), .error ()⟩ =
      { state := some ⟨⟨"s", 1000000000000, 0⟩, ⟨"m", 1000000000000, 0⟩, 8⟩
        result := .ok ⟨"Snowflake Token=\"" ++ "s" ++ "\"", 8⟩
        requests := [] } := by
  refine ⟨(C2_token_lifecycle _ _).1 _ (by decide) rfl, ?_, ?_⟩
  · exact ((C2_token_lifecycle _ _).2.1 _ (by decide) (by decide) rfl (by decide)).trans
      (by decide)
  · exact ((C2_token_lifecycle ⟨⟨"s", 1000000000000, 0⟩, ⟨"m", 1000000000000, 0⟩, 7⟩
      ⟨10, .error (), .error ()⟩).2.2 (by decide) (by decide) (by decide)).trans (by decide)

/-- C9: with a valid master token, an expired session token and a
failing renewal exchange, get_token surfaces the renewal error and
leaves the session holding no token pair (the pair was taken before the
request and is not restored), so the next get_token performs a full
fresh login and returns sequence_id 1. -/
theorem C9_renew_failure_resets (old : AuthTokens) (env envNext : CallEnv) (e : AuthErrorM)
    (ld : LoginDataM)
    (hm : old.masterToken.isExpired env.now = false)
    (hs : old.sessionToken.isExpired env.now = true)
    (hfail : renewTokens env.renewResp env.now old.sequenceId = .error e)
    (hlogin : envNext.loginResp = .ok (.login ld)) :
    getToken (some old) env =
      { state := none, result := .error e, requests := [.tokenRequest] }
    ∧ getToken none envNext =
      { state := some ⟨AuthToken.create ld.token ld.validityInSeconds envNext.now,
                       AuthToken.create ld.masterToken ld.masterValidityInSeconds envNext.now,
                       1⟩
        result := .ok ⟨(AuthToken.create ld.token ld.validityInSeconds envNext.now).authHeader,
                       1⟩
        requests := [.loginRequest] } := by
  have h1lt : (1 : Nat) < u64Mod := by simp [u64Mod]
  constructor
  · simp [getToken, Option.any, hm, hs, hfail]
  · simp [getToken, createTokens, hlogin, finishGetToken, Nat.mod_eq_of_lt h1lt]

/-- Witness for C9: a renewal rejected by the server clears the state;
the follow-up login restarts the sequence at 1. -/
theorem C9_renew_failure_resets_witness :
    getToken (some ⟨⟨"s", 0, 0⟩, ⟨"m", 1000000000000, 0⟩, 7⟩)
        ⟨10, .error (), .ok (.error (some "390112") (some "renew failed"))⟩ =
      { state := none, result := .error (.authFailed "390112" "renew failed")
        requests := [.tokenRequest] }
    ∧ getToken none ⟨20, .ok (.login ⟨"st", "mt", -1, -1⟩), .error ()⟩ =
      { state := some ⟨AuthToken.create "st" (-1) 20, AuthToken.create "mt" (-1) 20, 1⟩
        result := .ok ⟨(AuthToken.create "st" (-1) 20).authHeader, 1⟩
        requests := [.loginRequest] } :=
  C9_renew_failure_resets ⟨⟨"s", 0, 0⟩, ⟨"m", 1000000000000, 0⟩, 7⟩
    ⟨10, .error (), .ok (.error (some "390112") (some "renew failed"))⟩
    ⟨20, .ok (.login ⟨"st", "mt", -1, -1⟩), .error ()⟩
    (.authFailed "390112" "renew failed") ⟨"st", "mt", -1, -1⟩
    (by decide) (by decide) (by decide) rfl

/-- C3: exec classifies a statement by a case-insensitive prefix match
after stripping leading block comments; a PUT match routes to the
upload flow, a GET match (spec-modelled, absent from src) to the
download flow, and everything else is sent as a regular query. In
particular the comment-prefixed put statement classifies as PUT and
PUTATIVE does not (no white space after the keyword). -/
theorem C3_statement_classification :
    classifyStatement "/* c */ /*c2*/ put @stage" = .putFlow
    ∧ classifyStatement "PUTATIVE SELECT" = .regular
    ∧ putMatch "PUTATIVE SELECT" = false
    ∧ classifyStatement "get @stage file:///tmp/" = .getFlow
    ∧ classifyStatement "SELECT 1" = .regular
    ∧ ∀ s, classifyStatement s =
        if putMatch s then .putFlow else if getMatch s then .getFlow else .regular := by
  refine ⟨by decide, by decide, by decide, by decide, by decide, fun s => rfl⟩

/-- Counterexample for C4: the dispatcher inspects no status code. A 403
response with an unparseable body surfaces as the transparent reqwest
deserialization error (ConnectionError::RequestError), not as an
InvalidAccountIdentifier — no such variant exists in ConnectionError —
and the outcome is identical for a 500 response with the same body, so
no status-specific classification happens at all. -/
theorem C4_counterexample :
    @requestHandleResponse Json (fun _ => none) { status := 403, body := "403 Forbidden" }
      = .error .requestError
    ∧ @requestHandleResponse Json (fun _ => none) { status := 403, body := "403 Forbidden" }
      = @requestHandleResponse Json (fun _ => none) { status := 500, body := "403 Forbidden" } :=
  ⟨rfl, rfl⟩

/-- C4 amended: Connection::request never inspects the HTTP status. The
body of every response, 2xx or not, is parsed into the target type: on
success the parsed value is returned even for an error status, on parse
failure the reqwest decode error surfaces as RequestError (so a failed
parse is not silently swallowed, but there is no UnexpectedResponse
with the raw body and no InvalidAccountIdentifier for 403). Responses
differing only in status get identical outcomes. -/
theorem C4_status_never_inspected {R : Type} (decode : String → Option R)
    (resp : HttpResponseM) :
    (∀ r, decode resp.body = some r → requestHandleResponse decode resp = .ok r)
    ∧ (decode resp.body = none → requestHandleResponse decode resp = .error .requestError)
    ∧ ∀ status, requestHandleResponse decode { resp with status := status }
        = requestHandleResponse decode resp := by
  refine ⟨?_, ?_, ?_⟩
  · intro r h
    simp [requestHandleResponse, h]
  · intro h
    simp [requestHandleResponse, h]
  · intro status
    simp [requestHandleResponse]

/-- Witness for the amended C4 at a concrete decoder and response. -/
theorem C4_status_never_inspected_witness :
    (@requestHandleResponse Nat (fun b => if b = "7" then some 7 else none)
        { status := 403, body := "7" } = .ok 7)
    ∧ (@requestHandleResponse Nat (fun b => if b = "7" then some 7 else none)
        { status := 403, body := "oops" } = .error .requestError)
    ∧ @requestHandleResponse Nat (fun b => if b = "7" then some 7 else none)
        { status := 500, body := "7" }
      = @requestHandleResponse Nat (fun b => if b = "7" then some 7 else none)
        { status := 403, body := "7" } :=
  ⟨(C4_status_never_inspected (fun b => if b = "7" then some 7 else none)
      { status := 403, body := "7" }).1 7 (by decide),
   (C4_status_never_inspected (fun b => if b = "7" then some 7 else none)
      { status := 403, body := "oops" }).2.1 (by decide),
   (C4_status_never_inspected (fun b => if b = "7" then some 7 else none)
      { status := 403, body := "7" }).2.2 500⟩

/-- The push_file fold over a total metadata oracle partitions the files
into the two buckets by comparison with the threshold, keeping order. -/
lemma pushAll_total (sizes : String → Nat) (files : List String) (acc : UploadFilesM) :
    pushAll (fun f => some (sizes f)) acc files =
      some { smallFiles := acc.smallFiles
               ++ files.filter (fun f => !decide (acc.threshold < sizes f))
             largeFiles := acc.largeFiles
               ++ files.filter (fun f => decide (acc.threshold < sizes f))
             threshold := acc.threshold } := by
  induction files generalizing acc with
  | nil => simp [pushAll]
  | cons f fs ih =>
    by_cases h : acc.threshold < sizes f
    · rw [pushAll, pushFile]
      simp only [if_pos h]
      rw [ih]
      simp [List.filter_cons, h]
    · rw [pushAll, pushFile]
      simp only [if_neg h]
      rw [ih]
      simp [List.filter_cons, h]

/-- C5: for every matched file list with sizes and every threshold t,
get_files puts into small_files exactly the files of size at most the
clamped threshold and into large_files exactly those strictly above it.
A negative t is clamped to 0, so every file of positive size lands in
large_files; for a non-negative t the clamped comparison agrees with
the integer comparison against t. put_to_s3 then hands small_files to
the bounded-parallel upload with the max_parallel_uploads limit and
large_files to the sequential upload. -/
theorem C5_put_bucketing (globFn : String → Option (List (Option String)))
    (sizes : String → Nat) (src : List String) (t : Int) (location : String)
    (maxPar : Nat) :
    (getFiles globFn (fun f => some (sizes f)) src t =
      some { smallFiles := (expandGlobs globFn src).filter (fun f => decide (sizes f ≤ t.toNat))
             largeFiles := (expandGlobs globFn src).filter (fun f => decide (t.toNat < sizes f))
             threshold := t.toNat })
    ∧ (t < 0 → t.toNat = 0)
    ∧ (0 ≤ t → ∀ f, sizes f ≤ t.toNat ↔ (sizes f : Int) ≤ t)
    ∧ (∀ bucketName bucketPath, splitOnce location '/' = some (bucketName, bucketPath) →
        putToS3Plan globFn (fun f => some (sizes f)) location src t maxPar =
          some (.ok { parallelUploads :=
                        (expandGlobs globFn src).filter (fun f => decide (sizes f ≤ t.toNat))
                      maxParallel := maxPar
                      sequentialUploads :=
                        (expandGlobs globFn src).filter (fun f => decide (t.toNat < sizes f))
                      bucketPath := bucketPath })) := by
  have hbuckets : getFiles globFn (fun f => some (sizes f)) src t =
      some { smallFiles := (expandGlobs globFn src).filter (fun f => decide (sizes f ≤ t.toNat))
             largeFiles := (expandGlobs globFn src).filter (fun f => decide (t.toNat < sizes f))
             threshold := t.toNat } := by
    rw [getFiles, pushAll_total]
    simp only [UploadFilesM.create, List.nil_append, Option.some.injEq,
      UploadFilesM.mk.injEq]
    refine ⟨List.filter_congr ?_, trivial, trivial⟩
    intro x _
    rw [← decide_not]
    exact decide_eq_decide.mpr (by omega)
  refine ⟨hbuckets, fun ht => by omega, fun ht f => ?_, ?_⟩
  · omega
  · intro bucketName bucketPath hsplit
    simp [putToS3Plan, hsplit, hbuckets]

/-- Witness for C5: a 50-byte and a 200-byte file against threshold 100
split into small and large; a negative threshold clamps to 0 and sends
the positive-size files to the sequential (large) path. -/
theorem C5_put_bucketing_witness :
    (getFiles (fun _ => some [some "a.csv", some "b.csv"])
        (fun f => some (if f = "a.csv" then 50 else 200)) ["*.csv"] 100 =
      some { smallFiles := ["a.csv"], largeFiles := ["b.csv"], threshold := 100 })
    ∧ ((-7 : Int).toNat = 0)
    ∧ (50 ≤ (100 : Int).toNat ↔ ((50 : Nat) : Int) ≤ 100)
    ∧ putToS3Plan (fun _ => some [some "a.csv", some "b.csv"])
        (fun f => some (if f = "a.csv" then 50 else 200)) "bucket/path/" ["*.csv"] 100 4 =
      some (.ok { parallelUploads := ["a.csv"], maxParallel := 4
                  sequentialUploads := ["b.csv"], bucketPath := "path/" })
    ∧ getFiles (fun _ => some [some "a.csv", some "b.csv"])
        (fun f => some (if f = "a.csv" then 50 else 200)) ["*.csv"] (-7) =
      some { smallFiles := [], largeFiles := ["a.csv", "b.csv"], threshold := 0 } := by
  have h := C5_put_bucketing (fun _ => some [some "a.csv", some "b.csv"])
    (fun f => if f = "a.csv" then 50 else 200) ["*.csv"] 100 "bucket/path/" 4
  have hneg := C5_put_bucketing (fun _ => some [some "a.csv", some "b.csv"])
    (fun f => if f = "a.csv" then 50 else 200) ["*.csv"] (-7) "bucket/path/" 4
  refine ⟨h.1.trans (by decide), hneg.2.1 (by decide),
    (h.2.2.1 (by decide) "a.csv").trans (by simp), ?_, hneg.1.trans (by decide)⟩
  exact (h.2.2.2 "bucket" "path/" (by decide)).trans (by decide)

/-- Counterexample for C6. First: a src_locations entry naming a missing
file produces no glob matches, so get_files succeeds with both buckets
empty — the file is silently dropped and no IoError is returned (the
function has no error outcome at all, only success or panic). Second: a
file that matches the glob walk but whose metadata read then fails (for
example a broken symlink, or a file removed between glob and stat)
makes push_file panic on unwrap instead of returning an IoError. -/
theorem C6_counterexample :
    getFiles globNoMatches (fun _ => some 1) ["missing.txt"] 100 =
      some { smallFiles := [], largeFiles := [], threshold := 100 }
    ∧ getFiles (fun _ => some [some "gone.txt"]) (fun _ => none) ["gone.txt"] 100 = none :=
  ⟨rfl, rfl⟩

/-- C6 amended: in the staged-file engine wired into exec, a
src_locations entry naming a missing file yields no glob matches and is
silently dropped without any error; when every matched path has
readable metadata the whole operation succeeds; a matched path whose
metadata read fails causes a panic (unwrap), not an IoError; invalid
glob patterns and unreadable glob walk entries are skipped without
error. -/
theorem C6_missing_file_handling (globFn : String → Option (List (Option String)))
    (meta : String → Option Nat) (src : List String) (t : Int) :
    ((∀ f ∈ expandGlobs globFn src, (meta f).isSome) →
      (getFiles globFn meta src t).isSome)
    ∧ ((∃ f ∈ expandGlobs globFn src, meta f = none) → getFiles globFn meta src t = none)
    ∧ (∀ pattern entries, expandGlobs (fun _ => some entries) [pattern]
        = entries.filterMap id) := by
  have hsome : ∀ (files : List String) (acc : UploadFilesM),
      (∀ f ∈ files, (meta f).isSome) → (pushAll meta acc files).isSome := by
    intro files
    induction files with
    | nil =>
      intro acc _
      simp [pushAll]
    | cons f fs ih =>
      intro acc hall
      obtain ⟨len, hlen⟩ := Option.isSome_iff_exists.mp (hall f (by simp))
      rw [pushAll]
      simp only [pushFile, hlen]
      by_cases hc : acc.threshold < len
      · simp only [if_pos hc]
        exact ih _ (fun g hg => hall g (by simp [hg]))
      · simp only [if_neg hc]
        exact ih _ (fun g hg => hall g (by simp [hg]))
  have hnone : ∀ (files : List String) (acc : UploadFilesM),
      (∃ f ∈ files, meta f = none) → pushAll meta acc files = none := by
    intro files
    induction files with
    | nil =>
      intro acc h
      simp at h
    | cons f fs ih =>
      intro acc h
      rw [pushAll]
      by_cases hf : meta f = none
      · simp only [pushFile, hf]
      · obtain ⟨len, hlen⟩ := Option.ne_none_iff_exists'.mp hf
        have hrest : ∃ g ∈ fs, meta g = none := by
          obtain ⟨g, hg, hgn⟩ := h
          rcases List.mem_cons.mp hg with hgf | hgfs
          · exact absurd (hgf ▸ hgn) hf
          · exact ⟨g, hgfs, hgn⟩
        simp only [pushFile, hlen]
        by_cases hc : acc.threshold < len
        · simp only [if_pos hc]
          exact ih _ hrest
        · simp only [if_neg hc]
          exact ih _ hrest
  refine ⟨fun h => hsome _ _ h, fun h => hnone _ _ h, fun pattern entries => ?_⟩
  simp [expandGlobs]

/-- Witness for the amended C6: a readable matched file succeeds; a
matched file with a failing stat panics; walk entries that error are
skipped. -/
theorem C6_missing_file_handling_witness :
    (getFiles (fun _ => some [some "ok.txt"]) (fun _ => some 3) ["ok.txt"] 10).isSome
    ∧ getFiles (fun _ => some [some "gone2.txt"]) (fun _ => none) ["gone2.txt"] 10 = none
    ∧ expandGlobs (fun _ => some [some "a", none, some "b"]) ["*"] = ["a", "b"] := by
  refine ⟨(C6_missing_file_handling (fun _ => some [some "ok.txt"]) (fun _ => some 3)
      ["ok.txt"] 10).1 (by decide),
    (C6_missing_file_handling (fun _ => some [some "gone2.txt"]) (fun _ => none)
      ["gone2.txt"] 10).2.1 ⟨"gone2.txt", by decide, rfl⟩,
    ((C6_missing_file_handling (fun _ => some []) (fun _ => none) [] 0).2.2 "*"
      [some "a", none, some "b"]).trans (by decide)⟩

/-- C7: for every public-key DER, identifier and issue instant, the
claims issued by generate_jwt_token have iss equal to the identifier
followed by a dot, the SHA256 prefix and the standard-alphabet base64
of the SHA-256 of the DER public key; sub equal to the identifier; iat
and exp normalized to whole seconds; and numeric-date exp minus iat
equal to 86400 seconds. -/
theorem C7_jwt_claims (der : List Nat) (fullIdentifier : String) (now : Nat) :
    (generateJwtClaims der fullIdentifier now).iss =
        fullIdentifier ++ ".SHA256:" ++ base64Encode (sha256 der)
    ∧ (generateJwtClaims der fullIdentifier now).sub = fullIdentifier
    ∧ nsPerSec ∣ (generateJwtClaims der fullIdentifier now).iat
    ∧ nsPerSec ∣ (generateJwtClaims der fullIdentifier now).exp
    ∧ jwtNumericDate (generateJwtClaims der fullIdentifier now).exp -
        jwtNumericDate (generateJwtClaims der fullIdentifier now).iat = secondsPerDay := by
  refine ⟨rfl, rfl, ?_, ?_, ?_⟩
  · refine ⟨now / nsPerSec, ?_⟩
    simp only [generateJwtClaims, ClaimsM.create, truncToSecond, nsPerSec]
    omega
  · refine ⟨(now + secondsPerDay * nsPerSec) / nsPerSec, ?_⟩
    simp only [generateJwtClaims, ClaimsM.create, truncToSecond, nsPerSec, secondsPerDay]
    omega
  · simp only [generateJwtClaims, ClaimsM.create, truncToSecond, jwtNumericDate,
      nsPerSec, secondsPerDay]
    omega

/-- C8: the untagged ExecResponse decoder attempts the variants in the
declared precedence order PutGet, AsyncQuery, MultiStatementQuery,
Query, Error, so whenever the PutGet variant parses it wins; on the
concrete body that carries both the full PutGet field set (with
src_locations) and the full Query field set (with rowtype), the Query
variant also parses, yet the response deserializes as PutGet. -/
theorem C8_untagged_precedence :
    (∀ j r, decodeBase decodePutGetData j = some r →
      decodeExecResponse j = some (.putGet r))
    ∧ (decodeBase decodeQueryData putGetQueryAmbiguousBody).isSome = true
    ∧ Option.map ExecResponseM.isPutGet (decodeExecResponse putGetQueryAmbiguousBody)
        = some true := by
  refine ⟨?_, rfl, rfl⟩
  intro j r h
  simp [decodeExecResponse, h]

/-- Witness for C8: the ambiguous body decodes to its PutGet reading. -/
theorem C8_untagged_precedence_witness :
    decodeExecResponse putGetQueryAmbiguousBody = some (.putGet putGetAmbiguousDecoded) :=
  C8_untagged_precedence.1 putGetQueryAmbiguousBody putGetAmbiguousDecoded rfl

/-- C10: a query response with nonzero returned rows, no JSON rowset, a
present but empty rowset_base64 and an empty chunk list decodes to the
Arrow result with an empty batch list — not Empty and not a
BrokenResponse error. The base64 payload is only decoded when
non-empty and fetching over an empty chunk list contributes no batches,
whatever the decode and fetch oracles would do. -/
theorem C10_empty_base64 {β : Type} (d : QueryExecResponseDataM)
    (b64decode : String → Except SnowflakeApiErrorM (List Nat))
    (ipcBatches : List Nat → Except SnowflakeApiErrorM (List β))
    (fetchChunk : String → List (String × String) → Except SnowflakeApiErrorM (List Nat))
    (hret : d.returned ≠ 0) (hrowset : d.rowset = none)
    (hb64 : d.rowsetBase64 = some "") (hchunks : d.chunks = []) :
    execArrowDecode d b64decode ipcBatches fetchChunk = .ok (.arrow []) := by
  simp only [execArrowDecode, hret, hrowset, hb64, hchunks, if_neg, ite_false,
    if_true, ite_true]
  rfl

/-- Witness for C10 at a concrete response and oracles that fail on
every call (showing none of them is consulted). -/
theorem C10_empty_base64_witness :
    @execArrowDecode Nat emptyBase64QueryData
      (fun _ => .error .responseDeserializationError)
      (fun _ => .error .arrowError)
      (fun _ _ => .error .requestError) = .ok (.arrow []) :=
  C10_empty_base64 emptyBase64QueryData
    (fun _ => .error .responseDeserializationError)
    (fun _ => .error .arrowError)
    (fun _ _ => .error .requestError)
    (by decide) rfl rfl rfl
